import Mathlib

/-!
Verification development for the Resilient LLM Invocation & Audit Layer
(`src/utils.py`, `src/audit_logger.py`, `src/triage.py`).

Shallow embedding conventions:
- Python strings are modelled as `String` / `List Char`; `str.strip`,
  slicing, `str.upper`, `str.index`, substring membership and the regex
  word-boundary test `\bTOK\b` are modelled character-by-character.
  The regex word class `\w` is modelled as ASCII `[A-Za-z0-9_]` and
  upper-casing as ASCII upper-casing (all inputs of interest are ASCII).
- Floats (`confidence`, `latency_ms`) are modelled as `ℚ`; Python's
  `round(x, 2)` is modelled as exact round-half-to-even at 2 decimals.
- Network calls are modelled by an oracle (`Scenario`) giving the outcome
  of each potential provider attempt; exceptions become an `Except` value.
- Wall-clock fields (`timestamp`) and the sha256 prompt hash are elided
  or abstracted into a function parameter; no claim concerns them.
-/

/-- The six characters stripped by Python `str.strip()` /
matched by `\s` on ASCII input. -/
def pyIsSpace (c : Char) : Bool :=
  c == ' ' || c == '\t' || c == '\n' || c == '\r' || c == '\x0b' || c == '\x0c'

/-- Python `str.strip()`: drop leading and trailing whitespace. -/
def strip (l : List Char) : List Char :=
  ((l.dropWhile pyIsSpace).reverse.dropWhile pyIsSpace).reverse

/-- First index at which `pat` occurs as a contiguous substring of `s`
(Python `s.index(pat)` / the position test behind `pat in s`). -/
def subIdx? (s pat : List Char) : Option Nat :=
  (List.range (s.length + 1)).find? (fun i => List.isPrefixOf pat (s.drop i))

/-- Python `pat in s` substring membership. -/
def containsSub (s pat : List Char) : Bool :=
  (subIdx? s pat).isSome

/-- Word character for the regex `\b` boundary (ASCII model of `\w`). -/
def isWordChar (c : Char) : Bool :=
  c.isAlphanum || c == '_'

/-- The regex `\bpat\b` matches `s` at index `i`: `pat` occurs at `i`
and the characters bordering it (if any) are non-word characters.
Assumes `pat` itself starts and ends with word characters, as "YES" and
"NO" do. -/
def standaloneAt (s pat : List Char) (i : Nat) : Bool :=
  List.isPrefixOf pat (s.drop i)
  && (decide (i = 0) || !(isWordChar (s.getD (i - 1) ' ')))
  && (match s.get? (i + pat.length) with
      | some c => !(isWordChar c)
      | none => true)

/-- Python `bool(re.search(r"\bpat\b", s))`. -/
def hasStandalone (s pat : List Char) : Bool :=
  (List.range (s.length + 1)).any (standaloneAt s pat)

/-- First index of a standalone (whole-word) occurrence of `pat` in `s`. -/
def standaloneIdx? (s pat : List Char) : Option Nat :=
  (List.range (s.length + 1)).find? (standaloneAt s pat)

def YES_TOK : List Char := ['Y', 'E', 'S']

def NO_TOK : List Char := ['N', 'O']

def UNCERTAIN_TOK : List Char := ['U', 'N', 'C', 'E', 'R', 'T', 'A', 'I', 'N']

/-- Decision labels returned by `_parse_decision`. -/
inductive Decision where
  | yes
  | no
  | uncertain
deriving DecidableEq, Repr

/-- Result triple of `_parse_decision` (decision, justification, confidence). -/
structure Parsed where
  decision : Decision
  justification : List Char
  confidence : ℚ
deriving DecidableEq, Repr

/-- A character matched by the regex class `[.,:\-\s]` (ASCII model). -/
def punctOrSpace (c : Char) : Bool :=
  c == '.' || c == ',' || c == ':' || c == '-' || pyIsSpace c

/-- The justification extraction of `_parse_decision`, line 61 of
`triage.py`: `re.sub(r"^(YES|NO|UNCERTAIN)[.,:\-\s]*", "", clean,
flags=re.IGNORECASE).strip()`. The regex alternation tried in order at
the start of the string, case-insensitively. -/
def justificationOf (clean : List Char) : List Char :=
  let u := clean.map Char.toUpper
  let stripped :=
    if List.isPrefixOf YES_TOK u then (clean.drop 3).dropWhile punctOrSpace
    else if List.isPrefixOf NO_TOK u then (clean.drop 2).dropWhile punctOrSpace
    else if List.isPrefixOf UNCERTAIN_TOK u then (clean.drop 9).dropWhile punctOrSpace
    else clean
  strip stripped

/-- `clean = text.strip()` (triage.py line 28). -/
def clean_of (t : String) : List Char := strip t.toList

/-- `first_part = clean[:10].upper()` (triage.py line 31). -/
def first_part_of (t : String) : List Char :=
  ((clean_of t).take 10).map Char.toUpper

/-- `upper = clean.upper()` (triage.py line 40). -/
def upper_of (t : String) : List Char :=
  (clean_of t).map Char.toUpper

/-- Shallow embedding of `_parse_decision` (triage.py lines 23-63). -/
def parse_decision (t : String) : Parsed :=
  if containsSub ( first_part_of t) YES_TOK then
    ⟨.yes, justificationOf (clean_of t), 1⟩
  else if containsSub ( first_part_of t) NO_TOK then
    ⟨.no, justificationOf (clean_of t), 1⟩
  else
    let has_yes := hasStandalone (upper_of t) YES_TOK
    let has_no := hasStandalone (upper_of t) NO_TOK
    if has_yes && !has_no then ⟨.yes, justificationOf (clean_of t), 4/5⟩
    else if has_no && !has_yes then ⟨.no, justificationOf (clean_of t), 4/5⟩
    else if has_yes && has_no then
      ⟨if (subIdx? (upper_of t) YES_TOK).getD 0 < (subIdx? (upper_of t) NO_TOK).getD 0
        then .yes else .no,
       justificationOf (clean_of t), 1/2⟩
    else ⟨.uncertain, justificationOf (clean_of t), 1/2⟩

/-! ## Audit logger (`src/audit_logger.py`) -/

/-- Round half to even, the rounding of Python's builtin `round`. -/
def round_half_even (q : ℚ) : ℤ :=
  if Int.fract q < 1/2 then ⌊q⌋
  else if 1/2 < Int.fract q then ⌊q⌋ + 1
  else if ⌊q⌋ % 2 = 0 then ⌊q⌋ else ⌊q⌋ + 1

/-- Python `round(x, 2)` on an exact value. -/
def pyRound2 (q : ℚ) : ℚ :=
  (round_half_even (q * 100) : ℚ) / 100

/-- One JSONL audit record (audit_logger.py lines 31-43), minus the
wall-clock `timestamp` field. -/
structure AuditRecord where
  module : String
  article_id : String
  decision : String
  confidence : ℚ
  prompt_hash : String
  provider : String
  tokens_in : Nat
  tokens_out : Nat
  latency_ms : ℚ
  raw_response : String
deriving DecidableEq, Repr

/-- `AuditLogger.log` (audit_logger.py lines 17-47): build the record,
rounding `latency_ms` to 2 decimals, and append it to the file. -/
def AuditLogger_log (file : List AuditRecord) (module article_id decision : String)
    (confidence : ℚ) (prompt_hash provider : String) (tokens_in tokens_out : Nat)
    (latency_ms : ℚ) (raw_response : String) : List AuditRecord :=
  file ++ [{ module := module, article_id := article_id, decision := decision,
             confidence := confidence, prompt_hash := prompt_hash,
             provider := provider, tokens_in := tokens_in, tokens_out := tokens_out,
             latency_ms := pyRound2 latency_ms, raw_response := raw_response }]

/-! ## Filesystem model for `AuditLogger.__init__` -/

/-- A filesystem: the set of directories created so far and a map from
file path to content. -/
structure FileSys where
  dirs : List String
  files : List (String × String)
deriving DecidableEq, Repr

/-- Content of the file at `p`, if it exists. -/
def lookupFile (fs : FileSys) (p : String) : Option String :=
  (fs.files.find? (fun e => e.fst == p)).map Prod.snd

/-- Python `posixpath.dirname`: everything up to the last `/`, with
trailing slashes stripped unless the head is all slashes; `""` when the
path has no slash. -/
def dirnameL (p : List Char) : List Char :=
  let slashIdxs := (List.range p.length).filter (fun i => p.getD i ' ' == '/')
  match slashIdxs.getLast? with
  | none => []
  | some j =>
      let head := p.take (j + 1)
      if head ≠ [] ∧ ¬ (head.all (fun c => c == '/')) then
        (head.reverse.dropWhile (fun c => c == '/')).reverse
      else head

def dirname (p : String) : String := String.mk (dirnameL p.toList)

/-- Python `os.makedirs(d, exist_ok=True)`: raises `FileNotFoundError`
on the empty path, otherwise creates `d` (ancestor creation abstracted
to recording `d`; an already-existing directory is not an error). -/
def makedirs (fs : FileSys) (d : String) : Except String FileSys :=
  if d = "" then .error "FileNotFoundError"
  else .ok { fs with dirs := d :: fs.dirs }

/-- Python `open(p, "a")`: create the file empty when absent, keep its
content when present. -/
def open_append (fs : FileSys) (p : String) : FileSys :=
  match lookupFile fs p with
  | some _ => fs
  | none => { fs with files := (p, "") :: fs.files }

/-- `AuditLogger.__init__` (audit_logger.py lines 12-15):
`os.makedirs(os.path.dirname(output_path), exist_ok=True)` then
`open(output_path, "a")`. -/
def auditLogger_open (fs : FileSys) (output_path : String) : Except String FileSys :=
  match makedirs fs (dirname output_path) with
  | .error e => .error e
  | .ok fs1 => .ok (open_append fs1 output_path)

/-! ## Fallback controller (`call_llm`, utils.py lines 97-193) -/

/-- Normalised success payload of `_call_provider` (utils.py lines 80-85). -/
structure ProviderResult where
  text : String
  tokens_input : Nat
  tokens_output : Nat
  latency_ms : ℚ
deriving DecidableEq, Repr

/-- Outcome of one `_call_provider` attempt. `rateLimit` is HTTP 429
(`RateLimitError`, utils.py line 74); `timeout` is
`requests.exceptions.Timeout`; `httpError` is a non-2xx status raised by
`raise_for_status`; `otherError` is any other exception a network call
can raise, e.g. `requests.exceptions.ConnectionError`. -/
inductive POutcome where
  | success (r : ProviderResult)
  | rateLimit
  | timeout
  | httpError
  | otherError
deriving DecidableEq, Repr

/-- Exception kinds that can propagate out of `call_llm`. -/
inductive ExcKind where
  | rateLimit
  | timeout
  | httpError
  | otherError
deriving DecidableEq, Repr

/-- The exception raised by a failed attempt. -/
def excOf : POutcome → Option ExcKind
  | .success _ => none
  | .rateLimit => some .rateLimit
  | .timeout => some .timeout
  | .httpError => some .httpError
  | .otherError => some .otherError

/-- Network oracle for one `call_llm` invocation: the outcome each
potential provider attempt would have. -/
structure Scenario where
  primaryFirst : POutcome
  primaryRetry : POutcome
  secondary : POutcome
deriving DecidableEq, Repr

/-- `_GROQ_SKIP_THRESHOLD` (utils.py line 94). -/
def GROQ_SKIP_THRESHOLD : Nat := 3

/-- Python `decision_label or result["text"][:200]` (utils.py line 177):
`None` and the empty string are falsy. -/
def labelOr (decision_label : Option String) (text : String) : String :=
  match decision_label with
  | some s => if s = "" then text.take 200 else s
  | none => text.take 200

deriving instance DecidableEq for Except

/-- Everything observable about one `call_llm` invocation. -/
structure CallResult where
  failures : Nat
  primaryAttempts : Nat
  secondaryAttempts : Nat
  records : List AuditRecord
  outcome : Except ExcKind (ProviderResult × String)
deriving DecidableEq, Repr

/-- State after the primary-provider block of `call_llm` (utils.py lines
123-162): `got r` is `result = r` (a Groq success), `fallthrough` is
`result = None` (fall through to Together AI), `escalate e` is an
exception propagating out of the block. -/
inductive PrimaryPhase where
  | got (r : ProviderResult)
  | fallthrough
  | escalate (e : ExcKind)
deriving DecidableEq, Repr

/-- The primary-provider block of `call_llm` (utils.py lines 123-162):
skip decision, first Groq attempt, counter updates and the single
post-backoff retry. Returns the new `_groq_consecutive_failures`, the
number of Groq attempts made, and the phase result. The first attempt
absorbs `RateLimitError` (line 137) and `Timeout`/`HTTPError` (line
160) only; the retry absorbs every exception (line 150). -/
def groq_phase (sc : Scenario) (failures : Nat) : Nat × Nat × PrimaryPhase :=
  if GROQ_SKIP_THRESHOLD ≤ failures then (failures, 0, .fallthrough)
  else
    match sc.primaryFirst with
    | .success r => (0, 1, .got r)
    | .rateLimit =>
        if failures + 1 < GROQ_SKIP_THRESHOLD then
          match sc.primaryRetry with
          | .success r => (0, 2, .got r)
          | _ => (failures + 2, 2, .fallthrough)
        else (failures + 1, 1, .fallthrough)
    | .timeout => (failures, 1, .fallthrough)
    | .httpError => (failures, 1, .fallthrough)
    | .otherError => (failures, 1, .escalate .otherError)

/-- Shallow embedding of `call_llm` (utils.py lines 97-193).
`failures` is the module-global `_groq_consecutive_failures` on entry;
the returned `failures` is its value on exit. `records` is the list of
audit records appended during the call. The secondary (Together AI)
attempt at line 166 is outside any handler, so any failure there
propagates. -/
def call_llm (hash_fn : String → String) (prompt stage article_id : String)
    (decision_label : Option String) (sc : Scenario) (failures : Nat) : CallResult :=
  match groq_phase sc failures with
  | (f, pa, .escalate e) =>
      { failures := f, primaryAttempts := pa, secondaryAttempts := 0,
        records := [], outcome := .error e }
  | (f, pa, .got r) =>
      { failures := f, primaryAttempts := pa, secondaryAttempts := 0,
        records := AuditLogger_log [] stage article_id
          (labelOr decision_label r.text) 1 (hash_fn prompt) "groq"
          r.tokens_input r.tokens_output r.latency_ms r.text,
        outcome := .ok (r, "groq") }
  | (f, pa, .fallthrough) =>
      match sc.secondary with
      | .success r =>
          { failures := f, primaryAttempts := pa, secondaryAttempts := 1,
            records := AuditLogger_log [] stage article_id
              (labelOr decision_label r.text) 1 (hash_fn prompt) "together"
              r.tokens_input r.tokens_output r.latency_ms r.text,
            outcome := .ok (r, "together") }
      | o =>
          { failures := f, primaryAttempts := pa, secondaryAttempts := 1,
            records := [], outcome := .error ((excOf o).getD .otherError) }

/-- Arguments of one `call_llm` invocation together with its network
oracle, for multi-call runs. -/
structure CallSpec where
  prompt : String
  stage : String
  article_id : String
  decision_label : Option String
  scenario : Scenario
deriving DecidableEq

/-- The value of `_groq_consecutive_failures` after a sequence of
`call_llm` invocations starting from counter value `failures`. -/
def run_failures (hash_fn : String → String) : List CallSpec → Nat → Nat
  | [], failures => failures
  | c :: rest, failures =>
      run_failures hash_fn rest
        (call_llm hash_fn c.prompt c.stage c.article_id c.decision_label
          c.scenario failures).failures

/-- Shallow embedding of `triage_article` (triage.py lines 66-97),
restricted to what the claims need: it invokes `call_llm` with
`decision_label` left at its default `None`, then parses the response
text; the parsed decision and confidence go only into the returned
value, never into the audit record. -/
def triage_article (hash_fn : String → String) (prompt article_id : String)
    (sc : Scenario) (failures : Nat) :
    Nat × List AuditRecord × Except ExcKind Parsed :=
  let c := call_llm hash_fn prompt "triage" article_id none sc failures
  match c.outcome with
  | .error e => (c.failures, c.records, .error e)
  | .ok (r, _) => (c.failures, c.records, .ok (parse_decision r.text))

/-- The audit record `call_llm` builds for a successful invocation
(utils.py lines 174-185), as appended by `AuditLogger.log`. -/
def mkRecord (stage article_id : String) (decision_label : Option String)
    (prompt_hash provider : String) (r : ProviderResult) : AuditRecord :=
  { module := stage, article_id := article_id,
    decision := labelOr decision_label r.text, confidence := 1,
    prompt_hash := prompt_hash, provider := provider,
    tokens_in := r.tokens_input, tokens_out := r.tokens_output,
    latency_ms := pyRound2 r.latency_ms, raw_response := r.text }

/-- Claim C3, counterexample: both tokens occur standalone, the first
standalone token is "YES" (index 17, before the standalone "NO" at 30),
yet the parser decides NO, because it compares raw substring positions
and the "NO" inside "NOVEL" comes first. -/
theorem C3_counterexample :
    containsSub (first_part_of "it may be NOVEL: YES in part, NO in part") YES_TOK = false ∧
    containsSub (first_part_of "it may be NOVEL: YES in part, NO in part") NO_TOK = false ∧
    standaloneIdx? (upper_of "it may be NOVEL: YES in part, NO in part") YES_TOK = some 17 ∧
    standaloneIdx? (upper_of "it may be NOVEL: YES in part, NO in part") NO_TOK = some 30 ∧
    (parse_decision "it may be NOVEL: YES in part, NO in part").decision = Decision.no ∧
    (parse_decision "it may be NOVEL: YES in part, NO in part").confidence = 1/2 :=
  ⟨by decide, by decide, by decide, by decide, by decide, by rfl⟩

/-- Claim C3, amended: with both standalone tokens present and a clean
10-character prefix, the parser decides by the first occurrence of each
token as a raw substring (not as a standalone word), with confidence
exactly 1/2. -/
theorem C3_spec (t : String)
    (h1 : containsSub ( first_part_of t) YES_TOK = false)
    (h2 : containsSub ( first_part_of t) NO_TOK = false)
    (h3 : hasStandalone (upper_of t) YES_TOK = true)
    (h4 : hasStandalone (upper_of t) NO_TOK = true) :
    (parse_decision t).confidence = 1/2 ∧
    ((subIdx? (upper_of t) YES_TOK).getD 0 < (subIdx? (upper_of t) NO_TOK).getD 0 →
      (parse_decision t).decision = Decision.yes) ∧
    ((subIdx? (upper_of t) NO_TOK).getD 0 < (subIdx? (upper_of t) YES_TOK).getD 0 →
      (parse_decision t).decision = Decision.no) := by
  refine ⟨?_, ?_, ?_⟩
  · simp [parse_decision, h1, h2, h3, h4]
  · intro hlt
    simp [parse_decision, h1, h2, h3, h4, hlt]
  · intro hlt
    simp [parse_decision, h1, h2, h3, h4, Nat.lt_asymm hlt]

theorem C3_witness :
    (parse_decision "maybe it is YES or NO").confidence = 1/2 ∧
    (parse_decision "maybe it is YES or NO").decision = Decision.yes :=
  ⟨(C3_spec "maybe it is YES or NO" (by decide) (by decide) (by decide) (by decide)).1,
   (C3_spec "maybe it is YES or NO" (by decide) (by decide) (by decide)
      (by decide)).2.1 (by decide)⟩

/-- Claim C7, counterexample: the response "NO" contains standalone
"NO" and no standalone "YES", but gets confidence 1 (not 4/5) because
"NO" lies within the first 10 characters. -/
theorem C7_counterexample :
    hasStandalone (upper_of "NO") NO_TOK = true ∧
    hasStandalone (upper_of "NO") YES_TOK = false ∧
    (parse_decision "NO").decision = Decision.no ∧
    (parse_decision "NO").confidence = 1 ∧
    (parse_decision "NO").confidence ≠ 4/5 :=
  ⟨by decide, by decide, by decide, by rfl,
   by rw [show (parse_decision "NO").confidence = 1 from rfl]; norm_num⟩

/-- Claim C7, amended: when the first 10 characters of the cleaned
response contain neither token and the text has standalone "NO" but no
standalone "YES", the parser returns NO with confidence 4/5. -/
theorem C7_spec (t : String)
    (h1 : containsSub ( first_part_of t) YES_TOK = false)
    (h2 : containsSub ( first_part_of t) NO_TOK = false)
    (h3 : hasStandalone (upper_of t) NO_TOK = true)
    (h4 : hasStandalone (upper_of t) YES_TOK = false) :
    (parse_decision t).decision = Decision.no ∧
    (parse_decision t).confidence = 4/5 := by
  constructor
  · simp [parse_decision, h1, h2, h3, h4]
  · simp [parse_decision, h1, h2, h3, h4]

theorem C7_witness :
    (parse_decision "perhaps it is NO").decision = Decision.no ∧
    (parse_decision "perhaps it is NO").confidence = 4/5 :=
  C7_spec "perhaps it is NO" (by decide) (by decide) (by decide) (by decide)

/-- Claim C8, counterexample: a bare filename has an empty dirname and
`os.makedirs("")` raises `FileNotFoundError`, so opening the logger on
such a path fails instead of opening the file in append mode. -/
theorem C8_counterexample :
    auditLogger_open ⟨[], [("audit.jsonl", "old")]⟩ "audit.jsonl" =
      Except.error "FileNotFoundError" := by
  decide

/-- Claim C8, amended: for every target path with a non-empty parent
directory, opening the Audit Log Sink creates the parent directory,
opens the file in append mode (creating it empty only when absent),
preserves any existing content, and touches no other file. -/
theorem C8_spec (fs : FileSys) (p : String) (h : dirname p ≠ "") :
    ∃ fs', auditLogger_open fs p = .ok fs' ∧
      fs'.dirs = dirname p :: fs.dirs ∧
      (∀ c, lookupFile fs p = some c → lookupFile fs' p = some c) ∧
      (lookupFile fs p = none → lookupFile fs' p = some "") ∧
      (∀ q, q ≠ p → lookupFile fs' q = lookupFile fs q) := by
  have hopen : auditLogger_open fs p =
      .ok (open_append { fs with dirs := dirname p :: fs.dirs } p) := by
    unfold auditLogger_open makedirs
    rw [if_neg h]
  cases hc : lookupFile fs p with
  | some c =>
      have hfs' : open_append { fs with dirs := dirname p :: fs.dirs } p =
          { fs with dirs := dirname p :: fs.dirs } := by
        unfold open_append
        have hc2 : lookupFile { fs with dirs := dirname p :: fs.dirs } p = some c := hc
        rw [hc2]
      refine ⟨_, hopen, ?_⟩
      rw [hfs']
      exact ⟨rfl, fun d hd => by cases hd; exact hc, fun hn => Option.noConfusion hn,
             fun q _ => rfl⟩
  | none =>
      have hfs' : open_append { fs with dirs := dirname p :: fs.dirs } p =
          { dirs := dirname p :: fs.dirs, files := (p, "") :: fs.files } := by
        unfold open_append
        have hc2 : lookupFile { fs with dirs := dirname p :: fs.dirs } p = none := hc
        rw [hc2]
      refine ⟨_, hopen, ?_⟩
      rw [hfs']
      refine ⟨rfl, fun d hd => ?_, fun _ => ?_, fun q hq => ?_⟩
      · exact Option.noConfusion hd
      · simp [lookupFile]
      · have hpq : (p == q) = false := beq_eq_false_iff_ne.mpr (fun e => hq e.symm)
        simp [lookupFile, List.find?, hpq]

theorem C8_witness :
    dirname "outputs/audit_log.jsonl" ≠ "" ∧
    (∃ fs', auditLogger_open ⟨[], [("outputs/audit_log.jsonl", "old")]⟩
        "outputs/audit_log.jsonl" = .ok fs' ∧
      fs'.dirs = dirname "outputs/audit_log.jsonl" ::
        (⟨[], [("outputs/audit_log.jsonl", "old")]⟩ : FileSys).dirs ∧
      (∀ c, lookupFile ⟨[], [("outputs/audit_log.jsonl", "old")]⟩ "outputs/audit_log.jsonl" =
          some c → lookupFile fs' "outputs/audit_log.jsonl" = some c) ∧
      (lookupFile ⟨[], [("outputs/audit_log.jsonl", "old")]⟩ "outputs/audit_log.jsonl" = none →
          lookupFile fs' "outputs/audit_log.jsonl" = some "") ∧
      (∀ q, q ≠ "outputs/audit_log.jsonl" →
          lookupFile fs' q = lookupFile ⟨[], [("outputs/audit_log.jsonl", "old")]⟩ q)) :=
  ⟨by decide,
   C8_spec ⟨[], [("outputs/audit_log.jsonl", "old")]⟩ "outputs/audit_log.jsonl" (by decide)⟩

theorem groq_phase_skip (sc : Scenario) (failures : Nat) (h : 3 ≤ failures) :
    groq_phase sc failures = (failures, 0, .fallthrough) := by
  unfold groq_phase
  rw [if_pos (show GROQ_SKIP_THRESHOLD ≤ failures from h)]

theorem groq_phase_escalate (sc : Scenario) (failures f pa : Nat) (e : ExcKind)
    (h : groq_phase sc failures = (f, pa, .escalate e)) :
    sc.primaryFirst = POutcome.otherError ∧ e = ExcKind.otherError := by
  rcases sc with ⟨pf, pr, sec⟩
  unfold groq_phase at h
  rcases le_or_lt GROQ_SKIP_THRESHOLD failures with hskip | hskip
  · rw [if_pos hskip] at h
    exact absurd h (by simp)
  · rw [if_neg (Nat.not_le.mpr hskip)] at h
    cases pf with
    | success r => simp_all
    | timeout => simp_all
    | httpError => simp_all
    | otherError => simp_all
    | rateLimit =>
        rcases Nat.lt_or_ge (failures + 1) GROQ_SKIP_THRESHOLD with hlt | hlt
        · rw [if_pos hlt] at h
          cases pr <;> simp_all
        · rw [if_neg (Nat.not_lt.mpr hlt)] at h
          simp_all

theorem call_llm_fields (hash_fn : String → String) (prompt stage article_id : String)
    (dl : Option String) (sc : Scenario) (failures : Nat) :
    (call_llm hash_fn prompt stage article_id dl sc failures).failures =
      (groq_phase sc failures).1 ∧
    (call_llm hash_fn prompt stage article_id dl sc failures).primaryAttempts =
      (groq_phase sc failures).2.1 := by
  rcases hph : groq_phase sc failures with ⟨f, pa, ph⟩
  cases ph with
  | escalate e => simp [call_llm, hph]
  | got r => simp [call_llm, hph]
  | fallthrough => cases hs : sc.secondary <;> simp [call_llm, hph, hs]

theorem call_llm_shape (hash_fn : String → String) (prompt stage article_id : String)
    (dl : Option String) (sc : Scenario) (failures : Nat) :
    (∃ r p, (call_llm hash_fn prompt stage article_id dl sc failures).outcome = .ok (r, p) ∧
       (call_llm hash_fn prompt stage article_id dl sc failures).records =
         [mkRecord stage article_id dl (hash_fn prompt) p r]) ∨
    (∃ e, (call_llm hash_fn prompt stage article_id dl sc failures).outcome = .error e ∧
       (call_llm hash_fn prompt stage article_id dl sc failures).records = []) := by
  rcases hph : groq_phase sc failures with ⟨f, pa, ph⟩
  cases ph with
  | escalate e =>
      right
      exact ⟨e, by simp [call_llm, hph], by simp [call_llm, hph]⟩
  | got r =>
      left
      exact ⟨r, "groq", by simp [call_llm, hph],
             by simp [call_llm, hph, AuditLogger_log, mkRecord]⟩
  | fallthrough =>
      cases hs : sc.secondary with
      | success r =>
          left
          exact ⟨r, "together", by simp [call_llm, hph, hs],
                 by simp [call_llm, hph, hs, AuditLogger_log, mkRecord]⟩
      | rateLimit =>
          right
          exact ⟨.rateLimit, by simp [call_llm, hph, hs, excOf], by simp [call_llm, hph, hs]⟩
      | timeout =>
          right
          exact ⟨.timeout, by simp [call_llm, hph, hs, excOf], by simp [call_llm, hph, hs]⟩
      | httpError =>
          right
          exact ⟨.httpError, by simp [call_llm, hph, hs, excOf], by simp [call_llm, hph, hs]⟩
      | otherError =>
          right
          exact ⟨.otherError, by simp [call_llm, hph, hs, excOf], by simp [call_llm, hph, hs]⟩

/-- Claim C2: whenever the consecutive-failure counter is at least 3
(the skip threshold), `call_llm` makes no primary-provider attempt and
routes the call to the secondary provider. -/
theorem C2_spec (hash_fn : String → String) (prompt stage article_id : String)
    (dl : Option String) (sc : Scenario) (failures : Nat) (h : 3 ≤ failures) :
    (call_llm hash_fn prompt stage article_id dl sc failures).primaryAttempts = 0 ∧
    (call_llm hash_fn prompt stage article_id dl sc failures).secondaryAttempts = 1 := by
  have hph := groq_phase_skip sc failures h
  cases hs : sc.secondary <;> simp [call_llm, hph, hs]

theorem C2_witness :
    (call_llm (fun _ => "h") "p" "s" "a" none
      ⟨POutcome.success ⟨"R", 1, 2, 3⟩, POutcome.rateLimit,
       POutcome.success ⟨"R", 1, 2, 3⟩⟩ 3).primaryAttempts = 0 ∧
    (call_llm (fun _ => "h") "p" "s" "a" none
      ⟨POutcome.success ⟨"R", 1, 2, 3⟩, POutcome.rateLimit,
       POutcome.success ⟨"R", 1, 2, 3⟩⟩ 3).secondaryAttempts = 1 :=
  C2_spec (fun _ => "h") "p" "s" "a" none
    ⟨POutcome.success ⟨"R", 1, 2, 3⟩, POutcome.rateLimit,
     POutcome.success ⟨"R", 1, 2, 3⟩⟩ 3 (by decide)

/-- Claim C6: a primary-provider success on the first attempt or on the
post-backoff retry resets the counter to 0, and with a zero counter the
next call always attempts the primary provider. -/
theorem C6_spec (hash_fn : String → String) (prompt stage article_id : String)
    (dl : Option String) (sc : Scenario) (failures : Nat) (h : failures < 3) :
    (∀ r, sc.primaryFirst = POutcome.success r →
      (call_llm hash_fn prompt stage article_id dl sc failures).failures = 0) ∧
    (∀ r, sc.primaryFirst = POutcome.rateLimit → failures + 1 < 3 →
      sc.primaryRetry = POutcome.success r →
      (call_llm hash_fn prompt stage article_id dl sc failures).failures = 0) ∧
    (∀ sc' : Scenario, 1 ≤ (call_llm hash_fn prompt stage article_id dl sc' 0).primaryAttempts) := by
  refine ⟨?_, ?_, ?_⟩
  · intro r hpf
    have hph : groq_phase sc failures = (0, 1, .got r) := by
      unfold groq_phase
      rw [if_neg (show ¬ (GROQ_SKIP_THRESHOLD ≤ failures) from Nat.not_le.mpr h), hpf]
    simp [call_llm, hph]
  · intro r hpf hlt hpr
    have hph : groq_phase sc failures = (0, 2, .got r) := by
      unfold groq_phase
      rw [if_neg (show ¬ (GROQ_SKIP_THRESHOLD ≤ failures) from Nat.not_le.mpr h), hpf,
          if_pos (show failures + 1 < GROQ_SKIP_THRESHOLD from hlt), hpr]
    simp [call_llm, hph]
  · intro sc'
    rw [(call_llm_fields hash_fn prompt stage article_id dl sc' 0).2]
    rcases sc' with ⟨pf, pr, sec⟩
    cases pf <;> cases pr <;> simp [groq_phase, GROQ_SKIP_THRESHOLD]

theorem C6_witness :
    (call_llm (fun _ => "h") "p" "s" "a" none
      ⟨POutcome.success ⟨"R", 1, 2, 3⟩, POutcome.rateLimit, POutcome.rateLimit⟩ 0).failures = 0 :=
  (C6_spec (fun _ => "h") "p" "s" "a" none
    ⟨POutcome.success ⟨"R", 1, 2, 3⟩, POutcome.rateLimit, POutcome.rateLimit⟩ 0
    (by decide)).1 ⟨"R", 1, 2, 3⟩ rfl

/-- Claim C5, counterexample: from counter 0, a first-attempt `Timeout`
failure falls through to the secondary with the counter still 0 (no
increment), while a first-attempt rate-limit whose retry also fails
leaves the counter at 2 — the two kinds are not counted the same way on
the first attempt. -/
theorem C5_counterexample :
    (call_llm (fun _ => "h") "p" "s" "a" none
      ⟨POutcome.timeout, POutcome.rateLimit, POutcome.success ⟨"R", 1, 2, 3⟩⟩ 0).failures = 0 ∧
    (call_llm (fun _ => "h") "p" "s" "a" none
      ⟨POutcome.timeout, POutcome.rateLimit, POutcome.success ⟨"R", 1, 2, 3⟩⟩ 0).secondaryAttempts = 1 ∧
    (call_llm (fun _ => "h") "p" "s" "a" none
      ⟨POutcome.rateLimit, POutcome.timeout, POutcome.success ⟨"R", 1, 2, 3⟩⟩ 0).failures = 2 :=
  ⟨rfl, rfl, rfl⟩

/-- Claim C5, amended: a first-attempt `Timeout`/`HTTPError` failure
falls through to the secondary provider with the counter unchanged;
only the failure of the post-backoff retry (after a first-attempt rate
limit) increments the counter a second time, identically for every
retry failure kind. -/
theorem C5_spec (hash_fn : String → String) (prompt stage article_id : String)
    (dl : Option String) (sc : Scenario) (failures : Nat) (h : failures < 3) :
    ((sc.primaryFirst = POutcome.timeout ∨ sc.primaryFirst = POutcome.httpError) →
      (call_llm hash_fn prompt stage article_id dl sc failures).failures = failures ∧
      (call_llm hash_fn prompt stage article_id dl sc failures).secondaryAttempts = 1) ∧
    (sc.primaryFirst = POutcome.rateLimit → failures + 1 < 3 →
      (∀ r, sc.primaryRetry ≠ POutcome.success r) →
      (call_llm hash_fn prompt stage article_id dl sc failures).failures = failures + 2) := by
  constructor
  · intro hpf
    have hph : groq_phase sc failures = (failures, 1, .fallthrough) := by
      unfold groq_phase
      rcases hpf with hpf | hpf <;>
        rw [if_neg (show ¬ (GROQ_SKIP_THRESHOLD ≤ failures) from Nat.not_le.mpr h), hpf]
    cases hs : sc.secondary <;> simp [call_llm, hph, hs]
  · intro hpf hlt hpr
    have hph : groq_phase sc failures = (failures + 2, 2, .fallthrough) := by
      unfold groq_phase
      rw [if_neg (show ¬ (GROQ_SKIP_THRESHOLD ≤ failures) from Nat.not_le.mpr h), hpf,
          if_pos (show failures + 1 < GROQ_SKIP_THRESHOLD from hlt)]
      cases hr : sc.primaryRetry with
      | success r => exact absurd hr (hpr r)
      | rateLimit => rfl
      | timeout => rfl
      | httpError => rfl
      | otherError => rfl
    rw [(call_llm_fields hash_fn prompt stage article_id dl sc failures).1, hph]

theorem C5_witness :
    (call_llm (fun _ => "h") "p" "s" "a" none
      ⟨POutcome.httpError, POutcome.rateLimit, POutcome.success ⟨"R", 1, 2, 3⟩⟩ 1).failures = 1 ∧
    (call_llm (fun _ => "h") "p" "s" "a" none
      ⟨POutcome.httpError, POutcome.rateLimit, POutcome.success ⟨"R", 1, 2, 3⟩⟩ 1).secondaryAttempts = 1 :=
  (C5_spec (fun _ => "h") "p" "s" "a" none
    ⟨POutcome.httpError, POutcome.rateLimit, POutcome.success ⟨"R", 1, 2, 3⟩⟩ 1
    (by decide)).1 (Or.inr rfl)

/-- Claim C1, counterexample: a first-attempt failure outside
`RateLimitError`/`Timeout`/`HTTPError` (e.g. a connection error)
propagates to the caller without the secondary provider being tried,
even though the secondary would have succeeded. -/
theorem C1_counterexample :
    (call_llm (fun _ => "h") "p" "s" "a" none
      ⟨POutcome.otherError, POutcome.success ⟨"R", 1, 2, 3⟩, POutcome.success ⟨"R", 1, 2, 3⟩⟩
      0).outcome = Except.error ExcKind.otherError ∧
    (call_llm (fun _ => "h") "p" "s" "a" none
      ⟨POutcome.otherError, POutcome.success ⟨"R", 1, 2, 3⟩, POutcome.success ⟨"R", 1, 2, 3⟩⟩
      0).secondaryAttempts = 0 :=
  ⟨rfl, rfl⟩

/-- Claim C1, amended: when the first primary attempt does not raise an
unhandled exception kind, the caller sees either a success or the
terminal failure of the attempted secondary provider. -/
theorem C1_spec (hash_fn : String → String) (prompt stage article_id : String)
    (dl : Option String) (sc : Scenario) (failures : Nat)
    (h : sc.primaryFirst ≠ POutcome.otherError) :
    (∃ r p, (call_llm hash_fn prompt stage article_id dl sc failures).outcome = .ok (r, p)) ∨
    (∃ e, (call_llm hash_fn prompt stage article_id dl sc failures).outcome = .error e ∧
       (call_llm hash_fn prompt stage article_id dl sc failures).secondaryAttempts = 1 ∧
       excOf sc.secondary = some e) := by
  rcases hph : groq_phase sc failures with ⟨f, pa, ph⟩
  cases ph with
  | escalate e =>
      exact absurd (groq_phase_escalate sc failures f pa e hph).1 h
  | got r =>
      exact Or.inl ⟨r, "groq", by simp [call_llm, hph]⟩
  | fallthrough =>
      cases hs : sc.secondary with
      | success r =>
          exact Or.inl ⟨r, "together", by simp [call_llm, hph, hs]⟩
      | rateLimit =>
          exact Or.inr ⟨.rateLimit, by simp [call_llm, hph, hs, excOf],
            by simp [call_llm, hph, hs], by simp [hs, excOf]⟩
      | timeout =>
          exact Or.inr ⟨.timeout, by simp [call_llm, hph, hs, excOf],
            by simp [call_llm, hph, hs], by simp [hs, excOf]⟩
      | httpError =>
          exact Or.inr ⟨.httpError, by simp [call_llm, hph, hs, excOf],
            by simp [call_llm, hph, hs], by simp [hs, excOf]⟩
      | otherError =>
          exact Or.inr ⟨.otherError, by simp [call_llm, hph, hs, excOf],
            by simp [call_llm, hph, hs], by simp [hs, excOf]⟩

theorem C1_witness :
    (∃ r p, (call_llm (fun _ => "h") "p" "s" "a" none
        ⟨POutcome.rateLimit, POutcome.timeout, POutcome.httpError⟩ 0).outcome = .ok (r, p)) ∨
    (∃ e, (call_llm (fun _ => "h") "p" "s" "a" none
        ⟨POutcome.rateLimit, POutcome.timeout, POutcome.httpError⟩ 0).outcome = .error e ∧
       (call_llm (fun _ => "h") "p" "s" "a" none
        ⟨POutcome.rateLimit, POutcome.timeout, POutcome.httpError⟩ 0).secondaryAttempts = 1 ∧
       excOf (⟨POutcome.rateLimit, POutcome.timeout, POutcome.httpError⟩ : Scenario).secondary =
         some e) :=
  C1_spec (fun _ => "h") "p" "s" "a" none
    ⟨POutcome.rateLimit, POutcome.timeout, POutcome.httpError⟩ 0 (by decide)

/-- Claim C4: a successful call appends exactly one audit record, whose
token counters equal those returned to the caller and whose latency is
the measured latency rounded to 2 decimals. -/
theorem C4_spec (hash_fn : String → String) (prompt stage article_id : String)
    (dl : Option String) (sc : Scenario) (failures : Nat)
    (r : ProviderResult) (p : String)
    (h : (call_llm hash_fn prompt stage article_id dl sc failures).outcome = .ok (r, p)) :
    ∃ rec, (call_llm hash_fn prompt stage article_id dl sc failures).records = [rec] ∧
      rec.tokens_in = r.tokens_input ∧
      rec.tokens_out = r.tokens_output ∧
      rec.latency_ms = pyRound2 r.latency_ms := by
  rcases call_llm_shape hash_fn prompt stage article_id dl sc failures with
    ⟨r', p', hout, hrecs⟩ | ⟨e, hout, hrecs⟩
  · have heq : (Except.ok (r', p') : Except ExcKind (ProviderResult × String)) = .ok (r, p) :=
      hout.symm.trans h
    have heq2 : (r', p') = (r, p) := by injection heq
    have hr : r' = r := congrArg Prod.fst heq2
    have hp : p' = p := congrArg Prod.snd heq2
    subst hr
    subst hp
    exact ⟨mkRecord stage article_id dl (hash_fn prompt) p' r', hrecs, rfl, rfl, rfl⟩
  · exact absurd (hout.symm.trans h) (by simp)

theorem C4_witness :
    ∃ rec, (call_llm (fun _ => "h") "p" "s" "a" none
        ⟨POutcome.success ⟨"R", 5, 7, 10⟩, POutcome.rateLimit, POutcome.rateLimit⟩ 0).records =
      [rec] ∧
      rec.tokens_in = 5 ∧ rec.tokens_out = 7 ∧ rec.latency_ms = pyRound2 10 :=
  C4_spec (fun _ => "h") "p" "s" "a" none
    ⟨POutcome.success ⟨"R", 5, 7, 10⟩, POutcome.rateLimit, POutcome.rateLimit⟩ 0
    ⟨"R", 5, 7, 10⟩ "groq" rfl

theorem groq_phase_le (sc : Scenario) (failures : Nat) :
    (groq_phase sc failures).1 ≤ failures + 2 := by
  rcases sc with ⟨pf, pr, sec⟩
  unfold groq_phase
  rcases le_or_lt GROQ_SKIP_THRESHOLD failures with hskip | hskip
  · rw [if_pos hskip]
    exact Nat.le_add_right failures 2
  · rw [if_neg (Nat.not_le.mpr hskip)]
    cases pf with
    | success r => exact Nat.zero_le _
    | timeout => exact Nat.le_add_right failures 2
    | httpError => exact Nat.le_add_right failures 2
    | otherError => exact Nat.le_add_right failures 2
    | rateLimit =>
        rcases lt_or_ge (failures + 1) GROQ_SKIP_THRESHOLD with hlt | hlt
        · rw [if_pos hlt]
          cases pr with
          | success r => exact Nat.zero_le _
          | rateLimit => exact Nat.le_refl _
          | timeout => exact Nat.le_refl _
          | httpError => exact Nat.le_refl _
          | otherError => exact Nat.le_refl _
        · rw [if_neg (Nat.not_lt.mpr hlt)]
          exact Nat.le_succ (failures + 1)

theorem groq_phase_le3 (sc : Scenario) (failures : Nat) (h : failures ≤ 3) :
    (groq_phase sc failures).1 ≤ 3 := by
  rcases sc with ⟨pf, pr, sec⟩
  unfold groq_phase
  rcases le_or_lt GROQ_SKIP_THRESHOLD failures with hskip | hskip
  · rw [if_pos hskip]
    exact h
  · rw [if_neg (Nat.not_le.mpr hskip)]
    have h3 : failures < 3 := hskip
    cases pf with
    | success r => exact Nat.zero_le _
    | timeout => exact h
    | httpError => exact h
    | otherError => exact h
    | rateLimit =>
        rcases lt_or_ge (failures + 1) GROQ_SKIP_THRESHOLD with hlt | hlt
        · have hlt3 : failures + 1 < 3 := hlt
          rw [if_pos hlt]
          cases pr with
          | success r => exact Nat.zero_le _
          | rateLimit => show failures + 2 ≤ 3; omega
          | timeout => show failures + 2 ≤ 3; omega
          | httpError => show failures + 2 ≤ 3; omega
          | otherError => show failures + 2 ≤ 3; omega
        · rw [if_neg (Nat.not_lt.mpr hlt)]
          show failures + 1 ≤ 3
          omega

theorem call_llm_failures_le3 (hash_fn : String → String) (prompt stage article_id : String)
    (dl : Option String) (sc : Scenario) (failures : Nat) (h : failures ≤ 3) :
    (call_llm hash_fn prompt stage article_id dl sc failures).failures ≤ 3 := by
  rw [(call_llm_fields hash_fn prompt stage article_id dl sc failures).1]
  exact groq_phase_le3 sc failures h

theorem run_failures_le3 (hash_fn : String → String) (specs : List CallSpec) :
    ∀ failures, failures ≤ 3 → run_failures hash_fn specs failures ≤ 3 := by
  induction specs with
  | nil => exact fun s hs => hs
  | cons c rest ih =>
      intro s hs
      exact ih _ (call_llm_failures_le3 hash_fn c.prompt c.stage c.article_id
        c.decision_label c.scenario s hs)

theorem run_failures_at3 (hash_fn : String → String) (specs : List CallSpec) :
    run_failures hash_fn specs 3 = 3 := by
  induction specs with
  | nil => rfl
  | cons c rest ih =>
      have hc : (call_llm hash_fn c.prompt c.stage c.article_id
          c.decision_label c.scenario 3).failures = 3 := by
        rw [(call_llm_fields hash_fn c.prompt c.stage c.article_id
          c.decision_label c.scenario 3).1,
          groq_phase_skip c.scenario 3 (le_refl 3)]
      calc run_failures hash_fn (c :: rest) 3
          = run_failures hash_fn rest (call_llm hash_fn c.prompt c.stage c.article_id
              c.decision_label c.scenario 3).failures := rfl
        _ = run_failures hash_fn rest 3 := by rw [hc]
        _ = 3 := ih

/-- Claim C9: the counter, started at 0, never exceeds 3; one call
increases it by at most 2 and never changes it once it is at least 3;
from 3 on, every later call skips the primary provider. -/
theorem C9_spec :
    (∀ (hash_fn : String → String) (specs : List CallSpec),
       run_failures hash_fn specs 0 ≤ 3) ∧
    (∀ (hash_fn : String → String) (prompt stage article_id : String)
       (dl : Option String) (sc : Scenario) (failures : Nat),
       (call_llm hash_fn prompt stage article_id dl sc failures).failures ≤ failures + 2) ∧
    (∀ (hash_fn : String → String) (prompt stage article_id : String)
       (dl : Option String) (sc : Scenario) (failures : Nat), 3 ≤ failures →
       (call_llm hash_fn prompt stage article_id dl sc failures).failures = failures ∧
       (call_llm hash_fn prompt stage article_id dl sc failures).primaryAttempts = 0) ∧
    (∀ (hash_fn : String → String) (specs : List CallSpec),
       run_failures hash_fn specs 3 = 3) := by
  refine ⟨?_, ?_, ?_, ?_⟩
  · exact fun hash_fn specs => run_failures_le3 hash_fn specs 0 (by decide)
  · intro hash_fn prompt stage article_id dl sc failures
    rw [(call_llm_fields hash_fn prompt stage article_id dl sc failures).1]
    exact groq_phase_le sc failures
  · intro hash_fn prompt stage article_id dl sc failures h
    refine ⟨?_, ?_⟩
    · rw [(call_llm_fields hash_fn prompt stage article_id dl sc failures).1,
        groq_phase_skip sc failures h]
    · rw [(call_llm_fields hash_fn prompt stage article_id dl sc failures).2,
        groq_phase_skip sc failures h]
  · exact run_failures_at3

theorem C9_witness :
    run_failures (fun _ => "h")
      [⟨"p", "s", "a", none, ⟨POutcome.rateLimit, POutcome.rateLimit, POutcome.success ⟨"R", 1, 2, 3⟩⟩⟩,
       ⟨"p", "s", "a", none, ⟨POutcome.rateLimit, POutcome.rateLimit, POutcome.success ⟨"R", 1, 2, 3⟩⟩⟩] 0 ≤ 3 ∧
    run_failures (fun _ => "h")
      [⟨"p", "s", "a", none, ⟨POutcome.rateLimit, POutcome.rateLimit, POutcome.success ⟨"R", 1, 2, 3⟩⟩⟩] 3 = 3 ∧
    (call_llm (fun _ => "h") "p" "s" "a" none
      ⟨POutcome.rateLimit, POutcome.rateLimit, POutcome.success ⟨"R", 1, 2, 3⟩⟩ 4).failures = 4 :=
  by
  refine ⟨?_, ?_, ?_⟩
  · exact C9_spec.1 _ _
  · exact C9_spec.2.2.2 _ _
  · exact (C9_spec.2.2.1 (fun _ => "h") "p" "s" "a" none
      ⟨POutcome.rateLimit, POutcome.rateLimit, POutcome.success ⟨"R", 1, 2, 3⟩⟩ 4 (by decide)).1

set_option maxRecDepth 10000 in
/-- Claim C10, counterexample: a supplied but empty decision label is
falsy in Python, so the record stores the response-text prefix, not the
supplied label. -/
theorem C10_counterexample :
    ((call_llm (fun _ => "h") "p" "s" "a" (some "")
        ⟨POutcome.success ⟨"hello", 1, 2, 3⟩, POutcome.rateLimit, POutcome.rateLimit⟩
        0).records.map AuditRecord.decision) = ["hello"] ∧
    (some "" ≠ (none : Option String)) ∧ ("hello" : String) ≠ "" :=
  ⟨rfl, by decide, by decide⟩

/-- Claim C10, amended: every audit record a call writes has confidence
exactly 1 and decision `labelOr`, i.e. the label when it is non-empty,
else the first 200 characters of the response text; the record is a
function of the invocation alone, independent of the Decision Parser. -/
theorem C10_spec (hash_fn : String → String) (prompt stage article_id : String)
    (dl : Option String) (sc : Scenario) (failures : Nat) :
    ∀ rec ∈ (call_llm hash_fn prompt stage article_id dl sc failures).records,
      rec.confidence = 1 ∧
      ∃ r p, (call_llm hash_fn prompt stage article_id dl sc failures).outcome = .ok (r, p) ∧
        rec = mkRecord stage article_id dl (hash_fn prompt) p r ∧
        rec.decision = labelOr dl r.text := by
  intro rec hrec
  rcases call_llm_shape hash_fn prompt stage article_id dl sc failures with
    ⟨r', p', hout, hrecs⟩ | ⟨e, hout, hrecs⟩
  · rw [hrecs] at hrec
    have hthis : rec = mkRecord stage article_id dl (hash_fn prompt) p' r' :=
      List.mem_singleton.mp hrec
    subst hthis
    exact ⟨rfl, r', p', hout, rfl, rfl⟩
  · rw [hrecs] at hrec
    exact absurd hrec (List.not_mem_nil rec)

theorem C10_witness :
    (mkRecord "s" "a" none "h" "groq" ⟨"hello", 1, 2, 3⟩).confidence = 1 ∧
    ∃ r p, (call_llm (fun _ => "h") "p" "s" "a" none
        ⟨POutcome.success ⟨"hello", 1, 2, 3⟩, POutcome.rateLimit, POutcome.rateLimit⟩
        0).outcome = .ok (r, p) ∧
      (mkRecord "s" "a" none "h" "groq" ⟨"hello", 1, 2, 3⟩ : AuditRecord) =
        mkRecord "s" "a" none "h" p r ∧
      (mkRecord "s" "a" none "h" "groq" ⟨"hello", 1, 2, 3⟩).decision = labelOr none r.text :=
  C10_spec (fun _ => "h") "p" "s" "a" none
    ⟨POutcome.success ⟨"hello", 1, 2, 3⟩, POutcome.rateLimit, POutcome.rateLimit⟩ 0
    (mkRecord "s" "a" none "h" "groq" ⟨"hello", 1, 2, 3⟩) (List.Mem.head _)
